import Mathlib

/-!
Verification of the webhook configuration/dispatch subsystem of the
wweb-mcp repository (src/whatsapp-client.ts and the webhook tool handlers).

The TypeScript runtime values that flow through this subsystem (parsed JSON
configuration files, the global configuration variable, webhook payload
objects) are modelled by the inductive type `JSValue` below, with an explicit
`undefined` constructor for the JavaScript value `undefined`.  Field access,
optional chaining, truthiness, `||` defaulting and `===` comparison are
modelled by the helper functions that follow, each matching the JavaScript
semantics on the value shapes the program actually produces.
-/

namespace WwebMcp

/-- A JavaScript runtime value, as used by the webhook subsystem.  Numbers are
modelled as integers: every number that the subsystem inspects (HTTP status,
array length, timestamp, duration, file size) is integral. -/
inductive JSValue where
  | undefined : JSValue
  | null : JSValue
  | bool (b : Bool) : JSValue
  | num (n : Int) : JSValue
  | str (s : String) : JSValue
  | arr (items : List JSValue) : JSValue
  | obj (fields : List (String × JSValue)) : JSValue
deriving Repr

/-- JavaScript property access `v[k]`: on an object, the value stored under
the key (a stored `undefined` reads back as `undefined`); on every other value
the accesses performed by this program yield `undefined`. -/
def jsGet (v : JSValue) (k : String) : JSValue :=
  match v with
  | .obj fields =>
    match fields.find? (fun kv => kv.1 == k) with
    | some kv => kv.2
    | none => .undefined
  | _ => .undefined

/-- JavaScript optional chaining `v?.k`: `undefined` when `v` is `null` or
`undefined`, otherwise plain property access. -/
def jsOptChain (v : JSValue) (k : String) : JSValue :=
  match v with
  | .undefined => .undefined
  | .null => .undefined
  | _ => jsGet v k

/-- JavaScript truthiness of a value. -/
def jsTruthy (v : JSValue) : Bool :=
  match v with
  | .undefined => false
  | .null => false
  | .bool b => b
  | .num n => n != 0
  | .str s => s != ""
  | .arr _ => true
  | .obj _ => true

/-- JavaScript `a || b`: `a` when truthy, otherwise `b`. -/
def jsOr (a b : JSValue) : JSValue :=
  if jsTruthy a then a else b

/-- Character-list prefix test: `charsHasPrefix h n` holds when `n` is a
prefix of `h`. -/
def charsHasPrefix : List Char → List Char → Bool
  | _, [] => true
  | [], _ :: _ => false
  | c :: cs, d :: ds => c == d && charsHasPrefix cs ds

/-- Character-list substring test: `n` occurs contiguously in `h`. -/
def charsContains (h n : List Char) : Bool :=
  match h with
  | [] => charsHasPrefix [] n
  | _ :: t => charsHasPrefix h n || charsContains t n

/-- JavaScript `String.prototype.includes`: substring containment (the empty needle is
always contained). -/
def jsStrIncludes (s t : String) : Bool :=
  charsContains s.data t.data

/-- The characters of a list up to (excluding) the first occurrence of `c`:
the first piece of `String.prototype.split` on a single-character
separator. -/
def charsTakeUntil (c : Char) : List Char → List Char
  | [] => []
  | d :: ds => if d == c then [] else d :: charsTakeUntil c ds

/-- JavaScript `.length` property, as read on the values this program reads
it from (arrays and strings). -/
def jsLength (v : JSValue) : JSValue :=
  match v with
  | .arr items => .num items.length
  | .str s => .num s.length
  | _ => .undefined

/-- JavaScript `Array.prototype.includes(x)` for a string argument `x` (SameValueZero
equality: only a string element can equal a string), together with the
string-receiver case of `includes`; on other receivers the guarded call sites
of this program never reach it. -/
def jsIncludes (v : JSValue) (x : String) : Bool :=
  match v with
  | .arr items => items.any (fun e => match e with | .str s => s == x | _ => false)
  | .str s => jsStrIncludes s x
  | _ => false

/-- JavaScript strict equality `v === false`. -/
def jsIsFalse (v : JSValue) : Bool :=
  match v with
  | .bool false => true
  | _ => false

/-- The `?.length` step of `allowedNumbers?.length`: `undefined` when the
receiver is `null` or `undefined`, otherwise the `length` property. -/
def jsOptLength (v : JSValue) : JSValue :=
  match v with
  | .undefined => .undefined
  | .null => .undefined
  | _ => jsLength v

/-- Template-literal coercion of a value to a string, for the value shapes
that reach the `Bearer` header template (strings; the remaining primitive
cases follow JavaScript, container coercion is not needed by the program). -/
def jsTemplateStr (v : JSValue) : String :=
  match v with
  | .undefined => "undefined"
  | .null => "null"
  | .bool b => if b then "true" else "false"
  | .num n => toString n
  | .str s => s
  | .arr _ => ""
  | .obj _ => "[object Object]"

/-! ## The event filter (whatsapp-client.ts lines 179-189)

```
const isGroup = message.from.includes('@g.us');
if (
  (isGroup && webhookConfig.filters?.allowGroups === false) ||
  (!isGroup && webhookConfig.filters?.allowPrivate === false) ||
  (webhookConfig.filters?.allowedNumbers?.length &&
    !webhookConfig.filters.allowedNumbers.includes(contact.number))
) { return; }
```
-/

/-- The reject condition of the inbound-message filter, transcribed from the
`client.on` message handler.  `number` is `contact.number`. -/
def filterRejects (webhookConfig : JSValue) (isGroup : Bool) (number : String) : Bool :=
  (isGroup && jsIsFalse (jsOptChain (jsGet webhookConfig "filters") "allowGroups"))
  || (!isGroup && jsIsFalse (jsOptChain (jsGet webhookConfig "filters") "allowPrivate"))
  || (jsTruthy (jsOptLength (jsOptChain (jsGet webhookConfig "filters") "allowedNumbers"))
      && !(jsIncludes (jsGet (jsGet webhookConfig "filters") "allowedNumbers") number))

/-- The filter accepts exactly when the reject condition fails. -/
def filterAccepts (webhookConfig : JSValue) (isGroup : Bool) (number : String) : Bool :=
  !(filterRejects webhookConfig isGroup number)

/-! ## Structured configurations

The TypeScript interface `WebhookConfig` from whatsapp-client.ts:

```
interface WebhookConfig {
  url: string;
  authToken?: string;
  filters?: {
    allowedNumbers?: string[];
    allowPrivate?: boolean;
    allowGroups?: boolean;
  };
}
```
-/

/-- The inline `filters` member type of the `WebhookConfig` interface. -/
structure FilterRules where
  allowedNumbers : Option (List String)
  allowPrivate : Option Bool
  allowGroups : Option Bool
deriving DecidableEq, Repr

/-- The `WebhookConfig` interface. -/
structure WebhookConfig where
  url : String
  authToken : Option String
  filters : Option FilterRules
deriving DecidableEq, Repr

/-- The JavaScript object value of a `filters` member; an absent optional
field is an absent key. -/
def filtersToVal (f : FilterRules) : JSValue :=
  .obj ((match f.allowedNumbers with
          | some l => [("allowedNumbers", JSValue.arr (l.map JSValue.str))]
          | none => [])
        ++ (match f.allowPrivate with
          | some b => [("allowPrivate", JSValue.bool b)]
          | none => [])
        ++ (match f.allowGroups with
          | some b => [("allowGroups", JSValue.bool b)]
          | none => []))

/-- The JavaScript object value of a `WebhookConfig`; an absent optional
field is an absent key. -/
def configToVal (c : WebhookConfig) : JSValue :=
  .obj (("url", JSValue.str c.url)
        :: ((match c.authToken with
            | some t => [("authToken", JSValue.str t)]
            | none => [])
          ++ (match c.filters with
            | some f => [("filters", filtersToVal f)]
            | none => [])))

/-- The effective allowed-numbers list of a configuration (empty when the
`filters` member or the `allowedNumbers` field is absent). -/
def effAllowedNumbers (c : WebhookConfig) : List String :=
  (c.filters.bind (fun f => f.allowedNumbers)).getD []

/-! ## `JSON.stringify` followed by `JSON.parse`

`fs.writeFileSync(path, JSON.stringify(v, null, 2))` followed by
`JSON.parse(fs.readFileSync(path, 'utf8'))` is modelled at the level of
JavaScript values: `spVal v` is the value that parsing the serialized text
yields.  `JSON.stringify` returns `undefined` (not a string) on `undefined`
input — modelled as `none`, in which case `writeFileSync` throws — drops
object fields whose value is `undefined`, and serializes `undefined` array
elements as `null`. -/

mutual

def spVal : JSValue → Option JSValue
  | .undefined => none
  | .null => some .null
  | .bool b => some (.bool b)
  | .num n => some (.num n)
  | .str s => some (.str s)
  | .arr items => some (.arr (spItems items))
  | .obj fields => some (.obj (spFields fields))

def spItems : List JSValue → List JSValue
  | [] => []
  | v :: rest => (spVal v).getD .null :: spItems rest

def spFields : List (String × JSValue) → List (String × JSValue)
  | [] => []
  | (k, v) :: rest =>
    match spVal v with
    | none => spFields rest
    | some w => (k, w) :: spFields rest

end

/-! ## The configuration store state machine

The global mutable state of whatsapp-client.ts:

```
let currentWebhookConfig: WebhookConfig | undefined;
let configWatcher: any;
let webhookConfigPath: string;
```

plus the backing `webhook.json` file.  The file is modelled by its parse
status: absent, present with malformed content, or present with content whose
parse yields a value. -/

/-- The backing configuration file, by parse status. -/
inductive FileContent where
  | absent : FileContent
  | malformed : FileContent
  | doc (v : JSValue) : FileContent

/-- Log levels of the `logger` used by whatsapp-client.ts. -/
inductive LogLevel where
  | debug | info | warn | error
deriving DecidableEq, Repr

/-- One log line. -/
structure LogEntry where
  level : LogLevel
  msg : String
deriving DecidableEq, Repr

/-- The mutable state of the webhook configuration subsystem.  `store` is
`currentWebhookConfig` (`JSValue.undefined` when unset), `pathKnown` records
whether `webhookConfigPath` has been assigned, `watcherActive` whether a file
watcher is observing the backing file. -/
structure SysState where
  store : JSValue
  file : FileContent
  pathKnown : Bool
  watcherActive : Bool
  logs : List LogEntry

/-- Function `getCurrentWebhookConfig` (whatsapp-client.ts lines 93-95). -/
def getCurrentWebhookConfig (st : SysState) : JSValue :=
  st.store

/-- Function `loadWebhookConfig` (whatsapp-client.ts lines 32-52): assigns
`webhookConfigPath`; if the file exists, parses it into
`currentWebhookConfig`, with a parse failure logged and the store set to
`undefined`; if the file is missing, sets the store to `undefined`; then
starts the watcher (`setupWebhookConfigWatcher`, lines 54-75) when the file
exists.  Returns the updated state and the function's return value. -/
def loadWebhookConfig (st : SysState) : SysState × JSValue :=
  let st := { st with pathKnown := true }
  let st :=
    match st.file with
    | .doc v =>
      { st with store := v,
                logs := st.logs ++ [LogEntry.mk .info "Webhook config loaded successfully"] }
    | .malformed =>
      { st with store := .undefined,
                logs := st.logs ++ [LogEntry.mk .error "Failed to load webhook config:"] }
    | .absent => { st with store := .undefined }
  let st :=
    match st.file with
    | .absent => { st with watcherActive := false }
    | _ => { st with watcherActive := true,
                     logs := st.logs ++ [LogEntry.mk .info "Webhook config file watcher started"] }
  (st, st.store)

/-- The watcher callback (whatsapp-client.ts lines 62-72): on a `change`
notification, re-parse the file into the store; a parse failure (including a
read of a since-deleted file) is logged and leaves the store untouched. -/
def watcherOnChange (st : SysState) (eventType : String) : SysState :=
  if eventType = "change" then
    let st := { st with
      logs := st.logs ++ [LogEntry.mk .info "Webhook config file changed, reloading..."] }
    match st.file with
    | .doc v =>
      { st with store := v,
                logs := st.logs ++ [LogEntry.mk .info "Webhook config reloaded successfully"] }
    | _ =>
      { st with logs := st.logs ++ [LogEntry.mk .error "Failed to reload webhook config:"] }
  else st

/-- Function `updateWebhookConfig` (whatsapp-client.ts lines 78-90): replace the store
unconditionally; when `saveToFile` is set and a path is known, serialize and
write the file, catching and logging any failure.  `JSON.stringify` of
`undefined` yields `undefined`, so `writeFileSync` throws and the file is left
unchanged; `fsWriteOk` is the file-system outcome for an attempted write. -/
def updateWebhookConfig (st : SysState) (newConfig : JSValue) (saveToFile : Bool)
    (fsWriteOk : Bool) : SysState :=
  let st := { st with store := newConfig,
                      logs := st.logs ++ [LogEntry.mk .info "Webhook config updated dynamically"] }
  if saveToFile && st.pathKnown then
    match spVal newConfig with
    | none =>
      { st with logs := st.logs ++ [LogEntry.mk .error "Failed to save webhook config to file:"] }
    | some w =>
      if fsWriteOk then
        { st with file := .doc w,
                  logs := st.logs ++ [LogEntry.mk .info "Webhook config saved to file"] }
      else
        { st with logs := st.logs ++ [LogEntry.mk .error "Failed to save webhook config to file:"] }
  else st

/-- The `disable_webhook` tool handler (webhook tools, part_001 lines
1093-1111): `updateWebhookConfig(undefined as any, saveToFile)`. -/
def disableWebhook (st : SysState) (saveToFile : Bool) (fsWriteOk : Bool) : SysState :=
  updateWebhookConfig st .undefined saveToFile fsWriteOk

/-! ## Inbound messages

One inbound `Message` (with its `Contact`), as read by the message handler and
`prepareWebhookPayload` (whatsapp-client.ts lines 171-410).  The results of
the awaited external lookups — `message.downloadMedia()`,
`message.getQuotedMessage()`, `message.getChat()` — are carried as `Except`
fields: `.error` is a rejected promise. -/
structure MessageIn where
  from_ : String
  number : String
  pushname : String
  body : String
  timestamp : Int
  messageIdSerialized : String
  fromMe : Bool
  type : String
  deviceType : String
  isForwarded : Bool
  isStarred : Bool
  hasQuotedMsg : Bool
  hasReaction : Bool
  isEphemeral : Bool
  hasMedia : Bool
  duration : JSValue
  filename : JSValue
  location : JSValue
  vCards : JSValue
  quotedMsgId : JSValue
  inviteV4 : JSValue
  mentionedIds : JSValue
  mediaResult : Except String JSValue
  quotedResult : Except String JSValue
  chatResult : Except String JSValue

/-- The `basePayload` object literal (whatsapp-client.ts lines 219-234). -/
def basePayload (message : MessageIn) (isGroup : Bool) : List (String × JSValue) :=
  [("from", .str message.number),
   ("name", .str message.pushname),
   ("message", .str message.body),
   ("isGroup", .bool isGroup),
   ("timestamp", .num message.timestamp),
   ("messageId", .str message.messageIdSerialized),
   ("fromMe", .bool message.fromMe),
   ("type", .str message.type),
   ("deviceType", .str message.deviceType),
   ("isForwarded", .bool message.isForwarded),
   ("isStarred", .bool message.isStarred),
   ("hasQuotedMsg", .bool message.hasQuotedMsg),
   ("hasReaction", .bool message.hasReaction),
   ("isEphemeral", .bool message.isEphemeral)]

/-- The `switch (message.type)` dispatch (whatsapp-client.ts lines 240-346):
the `messageType` and `content` assignments on `enhancedPayload`. -/
def typedPart (message : MessageIn) : List (String × JSValue) :=
  match message.type with
  | "text" =>
    [("messageType", .str "text"),
     ("content", .obj [("text", .str message.body)])]
  | "image" =>
    [("messageType", .str "image"),
     ("content", .obj [
       ("caption", jsOr (.str message.body) (.str "")),
       ("hasMedia", .bool true),
       ("mediaType", .str "image")])]
  | "video" =>
    [("messageType", .str "video"),
     ("content", .obj [
       ("caption", jsOr (.str message.body) (.str "")),
       ("hasMedia", .bool true),
       ("mediaType", .str "video"),
       ("duration", jsOr message.duration (.num 0))])]
  | "audio" =>
    [("messageType", .str "audio"),
     ("content", .obj [
       ("hasMedia", .bool true),
       ("mediaType", .str "audio"),
       ("duration", jsOr message.duration (.num 0)),
       ("isVoiceMessage", .bool false)])]
  | "voice" =>
    [("messageType", .str "voice"),
     ("content", .obj [
       ("hasMedia", .bool true),
       ("mediaType", .str "voice"),
       ("duration", jsOr message.duration (.num 0)),
       ("isVoiceMessage", .bool true)])]
  | "document" =>
    [("messageType", .str "document"),
     ("content", .obj [
       ("caption", jsOr (.str message.body) (.str "")),
       ("hasMedia", .bool true),
       ("mediaType", .str "document"),
       ("filename", jsOr message.filename (.str "unknown"))])]
  | "sticker" =>
    [("messageType", .str "sticker"),
     ("content", .obj [
       ("hasMedia", .bool true),
       ("mediaType", .str "sticker")])]
  | "location" =>
    [("messageType", .str "location"),
     ("content", .obj [
       ("location", .obj [
         ("latitude", jsOptChain message.location "latitude"),
         ("longitude", jsOptChain message.location "longitude"),
         ("name", jsOptChain message.location "name"),
         ("address", jsOptChain message.location "address")])])]
  | "contact" =>
    [("messageType", .str "contact"),
     ("content", .obj [("contact", jsOr message.vCards (.arr []))])]
  | "reaction" =>
    [("messageType", .str "reaction"),
     ("content", .obj [
       ("reaction", .str message.body),
       ("quotedMessageId", message.quotedMsgId)])]
  | "group_invite" =>
    [("messageType", .str "group_invite"),
     ("content", .obj [
       ("inviteCode", jsOptChain message.inviteV4 "inviteCode"),
       ("inviteExpiration", jsOptChain message.inviteV4 "inviteExpiration")])]
  | _ =>
    [("messageType", .str "unknown"),
     ("content", .obj [
       ("text", jsOr (.str message.body) (.str "")),
       ("hasMedia", .bool message.hasMedia)])]

/-- The media block (whatsapp-client.ts lines 349-366): when the message has
media, `downloadMedia()` is awaited inside a try; a truthy result populates
`media`, a falsy result adds nothing, a rejection logs a warning and sets the
error marker.  Returns the added fields and the logged lines. -/
def mediaPart (message : MessageIn) : List (String × JSValue) × List LogEntry :=
  if message.hasMedia then
    match message.mediaResult with
    | .ok media =>
      if jsTruthy media then
        ([("media", .obj [
           ("mimetype", jsGet media "mimetype"),
           ("filename", jsGet media "filename"),
           ("filesize", jsGet media "filesize"),
           ("data", jsGet media "data")])], [])
      else ([], [])
    | .error _ =>
      ([("media", .obj [("error", .str "Failed to download media")])],
       [LogEntry.mk .warn "Failed to download media for webhook:"])
  else ([], [])

/-- The quoted-message block (whatsapp-client.ts lines 369-381). -/
def quotedPart (message : MessageIn) : List (String × JSValue) × List LogEntry :=
  if message.hasQuotedMsg then
    match message.quotedResult with
    | .ok quotedMessage =>
      ([("quotedMessage", .obj [
         ("messageId", jsGet (jsGet quotedMessage "id") "_serialized"),
         ("body", jsGet quotedMessage "body"),
         ("type", jsGet quotedMessage "type"),
         ("fromMe", jsGet quotedMessage "fromMe")])], [])
    | .error _ =>
      ([], [LogEntry.mk .warn "Failed to get quoted message for webhook:"])
  else ([], [])

/-- The group block (whatsapp-client.ts lines 384-399):
`chat.participants?.map(...) || []`. -/
def groupPart (message : MessageIn) (isGroup : Bool) :
    List (String × JSValue) × List LogEntry :=
  if isGroup then
    match message.chatResult with
    | .ok chat =>
      ([("group", .obj [
         ("id", jsGet (jsGet chat "id") "_serialized"),
         ("name", jsGet chat "name"),
         ("participants",
           match jsOptChain chat "participants" with
           | .arr ps => .arr (ps.map (fun p => .obj [
               ("id", jsGet (jsGet p "id") "_serialized"),
               ("number", jsGet (jsGet p "id") "user"),
               ("isAdmin", jsGet p "isAdmin")]))
           | _ => .arr [])])], [])
    | .error _ =>
      ([], [LogEntry.mk .warn "Failed to get group information for webhook:"])
  else ([], [])

/-- The mentions block (whatsapp-client.ts lines 402-407):
`if (message.mentionedIds && message.mentionedIds.length > 0)`, mapping each
id to `{ id, number: id.split('@')[0] }`. -/
def mentionsPart (message : MessageIn) : List (String × JSValue) :=
  match message.mentionedIds with
  | .arr ids =>
    if jsTruthy message.mentionedIds && ids.length > 0 then
      [("mentions", .arr (ids.map (fun id => .obj [
         ("id", id),
         ("number", match id with
           | .str s => .str (String.mk (charsTakeUntil '@' s.data))
           | _ => .undefined)])))]
    else []
  | _ => []

/-- Function `prepareWebhookPayload` (whatsapp-client.ts lines 218-410): the enhanced
payload object, with the warning lines logged during enrichment.  Every
enrichment failure is caught inside the function, which therefore always
returns a payload. -/
def prepareWebhookPayload (message : MessageIn) (isGroup : Bool) :
    JSValue × List LogEntry :=
  let media := mediaPart message
  let quoted := quotedPart message
  let group := groupPart message isGroup
  (.obj (basePayload message isGroup ++ typedPart message
          ++ media.1 ++ quoted.1 ++ group.1 ++ mentionsPart message),
   media.2 ++ quoted.2 ++ group.2)

/-! ## Dispatch and the message handler (whatsapp-client.ts lines 171-215)

```
const webhookConfig = currentWebhookConfig;
if (webhookConfig) {
  const isGroup = message.from.includes('@g.us');
  if (...filters...) { return; }
  try {
    const webhookPayload = await prepareWebhookPayload(message, contact, isGroup);
    const response = await axios.post(webhookConfig.url, webhookPayload, {
      headers: { 'Content-Type': 'application/json',
                 ...(webhookConfig.authToken
                   ? { Authorization: `Bearer ...` } : {}) } });
    if (response.status < 200 || response.status >= 300) {
      logger.warn(`Webhook request failed with status ...`);
    }
  } catch (error) { logger.error('Error sending webhook:', error); }
}
```

The single `axios.post` of an accepted event is modelled by its request
record plus an `outcome` parameter describing what the environment made
`axios.post` do: resolve with some status, or reject (a transport error or an
axios status-validation rejection). -/

/-- The outbound HTTP request issued by `axios.post`. -/
structure HttpRequest where
  method : String
  url : JSValue
  body : JSValue
  headers : List (String × String)

/-- The request record built at the `axios.post` call site. -/
def mkRequest (webhookConfig : JSValue) (webhookPayload : JSValue) : HttpRequest :=
  { method := "POST",
    url := jsGet webhookConfig "url",
    body := webhookPayload,
    headers := [("Content-Type", "application/json")]
      ++ (if jsTruthy (jsGet webhookConfig "authToken") then
            [("Authorization", "Bearer " ++ jsTemplateStr (jsGet webhookConfig "authToken"))]
          else []) }

/-- The observable result of running the message handler on one inbound
event: whether the filter was evaluated, whether a payload was built, the
HTTP requests issued, and the lines logged. -/
structure HandlerResult where
  filterEvaluated : Bool
  payloadBuilt : Bool
  requests : List HttpRequest
  logs : List LogEntry

/-- The try-block of the dispatch section, as an `Except` computation:
`.error` is a JavaScript exception escaping the try body (the payload builder
itself never throws; `axios.post` rejects on transport errors and, by its
default status validation, on non-2xx responses).  The request has been
issued in either case. -/
def dispatchTry (webhookConfig : JSValue) (message : MessageIn) (isGroup : Bool)
    (outcome : Except String Int) : List HttpRequest × Except String (List LogEntry) :=
  let payload := prepareWebhookPayload message isGroup
  let req := mkRequest webhookConfig payload.1
  match outcome with
  | .ok status =>
    ([req], .ok (payload.2
      ++ (if status < 200 || 300 ≤ status then
            [LogEntry.mk .warn ("Webhook request failed with status " ++ toString status)]
          else [])))
  | .error _ => ([req], .error "Error sending webhook:")

/-- The message handler (whatsapp-client.ts lines 171-215).  The handler
reads `currentWebhookConfig` exactly once, into the local `webhookConfig`;
`webhookConfig` here is that snapshot.  `outcome` is what `axios.post` does
for the one request of this event; the surrounding catch turns any exception
from the try body into an error log line. -/
def processMessage (webhookConfig : JSValue) (message : MessageIn)
    (outcome : Except String Int) : HandlerResult :=
  let dlog := LogEntry.mk .debug
    (message.pushname ++ " (" ++ message.number ++ "): " ++ message.body)
  if jsTruthy webhookConfig then
    let isGroup := jsStrIncludes message.from_ "@g.us"
    if filterRejects webhookConfig isGroup message.number then
      { filterEvaluated := true, payloadBuilt := false, requests := [], logs := [dlog] }
    else
      let tried := dispatchTry webhookConfig message isGroup outcome
      match tried.2 with
      | .ok plogs =>
        { filterEvaluated := true, payloadBuilt := true,
          requests := tried.1, logs := [dlog] ++ plogs }
      | .error e =>
        { filterEvaluated := true, payloadBuilt := true,
          requests := tried.1, logs := [dlog] ++ [LogEntry.mk .error e] }
  else
    { filterEvaluated := false, payloadBuilt := false, requests := [], logs := [dlog] }

/-- A sequence of inbound events processed under a fixed configuration, each
with its own dispatch outcome.  Event processing carries no state from one
event to the next: the handler only reads the configuration. -/
def processEvents (webhookConfig : JSValue) :
    List (MessageIn × Except String Int) → List HandlerResult
  | [] => []
  | (message, outcome) :: rest =>
    processMessage webhookConfig message outcome :: processEvents webhookConfig rest

/-- One inbound event processed while the configuration store changes
mid-flight: `storeAtEntry` is the store content when the handler runs
`const webhookConfig = currentWebhookConfig`, and `storeAtDispatch` is the
store content by the time the awaited payload construction finishes and
`axios.post` runs.  The source reads the store exactly once, at entry, so the
whole event — filter and dispatch alike — uses `storeAtEntry`. -/
def runEventWithStores (storeAtEntry storeAtDispatch : JSValue) (message : MessageIn)
    (outcome : Except String Int) : HandlerResult :=
  processMessage storeAtEntry message outcome

/-! ## Computation lemmas on structured configurations -/

lemma filters_val (c : WebhookConfig) :
    jsGet (configToVal c) "filters" =
      (match c.filters with | some f => filtersToVal f | none => .undefined) := by
  rcases c with ⟨u, t, f⟩
  cases t <;> cases f <;> rfl

lemma url_val (c : WebhookConfig) :
    jsGet (configToVal c) "url" = .str c.url := by
  rcases c with ⟨u, t, f⟩
  cases t <;> cases f <;> rfl

lemma authToken_val (c : WebhookConfig) :
    jsGet (configToVal c) "authToken" =
      (match c.authToken with | some t => .str t | none => .undefined) := by
  rcases c with ⟨u, t, f⟩
  cases t <;> cases f <;> rfl

lemma allowGroups_val (f : FilterRules) :
    jsOptChain (filtersToVal f) "allowGroups" =
      (match f.allowGroups with | some b => .bool b | none => .undefined) := by
  rcases f with ⟨an, ap, ag⟩
  cases an <;> cases ap <;> cases ag <;> rfl

lemma allowPrivate_val (f : FilterRules) :
    jsOptChain (filtersToVal f) "allowPrivate" =
      (match f.allowPrivate with | some b => .bool b | none => .undefined) := by
  rcases f with ⟨an, ap, ag⟩
  cases an <;> cases ap <;> cases ag <;> rfl

lemma allowedNumbers_val (f : FilterRules) :
    jsGet (filtersToVal f) "allowedNumbers" =
      (match f.allowedNumbers with | some l => .arr (l.map JSValue.str) | none => .undefined) := by
  rcases f with ⟨an, ap, ag⟩
  cases an <;> cases ap <;> cases ag <;> rfl

lemma jsOptChain_filtersToVal (f : FilterRules) (k : String) :
    jsOptChain (filtersToVal f) k = jsGet (filtersToVal f) k := rfl

lemma any_map_str (l : List String) (x : String) :
    ((l.map JSValue.str).any
      (fun e => match e with | .str s => s == x | _ => false)) = l.any (fun s => s == x) := by
  induction l with
  | nil => rfl
  | cons a as ih => simp [List.any_cons, ih]

/-- C1: the event filter accepts exactly when every applicable rule holds:
a group message requires `allowGroups` to not be `false`, a private message
requires `allowPrivate` to not be `false`, and a non-empty `allowedNumbers`
list requires the sender number to be a member.  In particular an empty
`allowedNumbers` list imposes no sender restriction, and with a non-empty
list an unlisted sender is rejected regardless of the group/private flags. -/
lemma jsIsFalse_bool (b : Bool) : jsIsFalse (.bool b) = !b := by
  cases b <;> rfl

theorem filter_accepts_iff (c : WebhookConfig) (isGroup : Bool) (sender : String) :
    filterAccepts (configToVal c) isGroup sender = true ↔
      ((isGroup = true → c.filters.bind FilterRules.allowGroups ≠ some false)
       ∧ (isGroup = false → c.filters.bind FilterRules.allowPrivate ≠ some false)
       ∧ (effAllowedNumbers c ≠ [] → sender ∈ effAllowedNumbers c)) := by
  rcases c with ⟨u, t, fo⟩
  simp only [filterAccepts, filterRejects, effAllowedNumbers]
  cases fo with
  | none =>
    cases t <;>
      simp [configToVal, jsGet, jsOptChain, jsIsFalse, jsOptLength, jsTruthy, jsIncludes]
  | some f =>
    rcases f with ⟨an, ap, ag⟩
    cases t <;> cases an <;> cases ap <;> cases ag <;>
      simp [configToVal, filtersToVal, jsGet, jsOptChain, jsIsFalse_bool, jsIsFalse,
        jsOptLength, jsLength, List.length_map, jsTruthy, jsIncludes, List.find?,
        any_map_str, List.any_eq_true, List.length_eq_zero, not_or, and_assoc,
        Decidable.imp_iff_not_or] <;>
      aesop

/-- C1 witness: the scenario configuration of spec §8 extended with an
allowed-numbers list; a listed private sender is accepted. -/
theorem filter_accepts_iff_witness :
    filterAccepts
      (configToVal ⟨"https://example.test/hook", none,
        some ⟨some ["15551234567"], some true, some false⟩⟩) false "15551234567" = true :=
  (filter_accepts_iff ⟨"https://example.test/hook", none,
      some ⟨some ["15551234567"], some true, some false⟩⟩ false "15551234567").mpr
    (by refine ⟨by simp, fun _ => by simp, fun _ => ?_⟩
        simp [effAllowedNumbers])

/-! ## The configuration store theorems -/

/-- C6: a watcher-triggered reload replaces the store with the parsed value
when the file parses, and on a parse failure logs the error and leaves the
previously held store untouched. -/
theorem watcher_reload (st : SysState) :
    (∀ v, st.file = .doc v → (watcherOnChange st "change").store = v)
    ∧ (st.file = .malformed →
        (watcherOnChange st "change").store = st.store
        ∧ LogEntry.mk .error "Failed to reload webhook config:"
            ∈ (watcherOnChange st "change").logs) := by
  constructor
  · intro v hv
    simp [watcherOnChange, hv]
  · intro hm
    simp [watcherOnChange, hm]

/-- C6 witness: a malformed reload over a live configuration preserves it. -/
theorem watcher_reload_witness :
    (watcherOnChange
        ⟨.obj [("url", .str "https://old.example/hook")], .malformed, true, true, []⟩
        "change").store = .obj [("url", .str "https://old.example/hook")] :=
  ((watcher_reload
      ⟨.obj [("url", .str "https://old.example/hook")], .malformed, true, true, []⟩).2
    rfl).1

/-- C3 counterexample: `loadWebhookConfig` on a malformed file clears a
previously held in-memory configuration (sets the store to `undefined`), and
its return value is plain `undefined` — no parse error is surfaced to the
caller, only an error log line is emitted.  This falsifies the claim that
`loadFromFile` never mutates the store on malformed content. -/
theorem load_malformed_counterexample :
    (loadWebhookConfig
        ⟨.obj [("url", .str "https://old.example/hook")], .malformed, true, true, []⟩).1.store
      = .undefined
    ∧ (loadWebhookConfig
        ⟨.obj [("url", .str "https://old.example/hook")], .malformed, true, true, []⟩).1.store
      ≠ (⟨.obj [("url", .str "https://old.example/hook")], .malformed, true, true,
          ([] : List LogEntry)⟩ : SysState).store
    ∧ (loadWebhookConfig
        ⟨.obj [("url", .str "https://old.example/hook")], .malformed, true, true, []⟩).2
      = .undefined
    ∧ (loadWebhookConfig
        ⟨.obj [("url", .str "https://old.example/hook")], .malformed, true, true, []⟩).1.logs
      = [LogEntry.mk .error "Failed to load webhook config:",
         LogEntry.mk .info "Webhook config file watcher started"] := by
  refine ⟨rfl, ?_, rfl, rfl⟩
  simp [loadWebhookConfig]

/-- C3 amended: on a missing file `loadWebhookConfig` returns `undefined`
with no error and no log line; on malformed content the parse error is logged
and absorbed (the function still returns `undefined`, surfacing nothing), and
the store is reset to `undefined` rather than left unchanged. -/
theorem load_behavior (st : SysState) :
    (st.file = .absent →
      (loadWebhookConfig st).2 = .undefined
      ∧ (loadWebhookConfig st).1.store = .undefined
      ∧ (loadWebhookConfig st).1.logs = st.logs)
    ∧ (st.file = .malformed →
      (loadWebhookConfig st).2 = .undefined
      ∧ (loadWebhookConfig st).1.store = .undefined
      ∧ (loadWebhookConfig st).1.logs
          = st.logs ++ [LogEntry.mk .error "Failed to load webhook config:",
                        LogEntry.mk .info "Webhook config file watcher started"]) := by
  constructor
  · intro h
    simp [loadWebhookConfig, h]
  · intro h
    simp [loadWebhookConfig, h]

/-- C3 amended witness: loading with the backing file missing. -/
theorem load_behavior_witness :
    (loadWebhookConfig ⟨.undefined, .absent, false, false, []⟩).2 = .undefined
    ∧ (loadWebhookConfig ⟨.undefined, .absent, false, false, []⟩).1.store = .undefined
    ∧ (loadWebhookConfig ⟨.undefined, .absent, false, false, []⟩).1.logs = [] :=
  (load_behavior ⟨.undefined, .absent, false, false, []⟩).1 rfl

/-- C5: `updateWebhookConfig` always installs the new configuration in
memory; when the persist write is attempted and the file system fails, the
failure is logged (the only reporting channel of this void function) while
the in-memory update stands and the file keeps its prior content — the
in-memory change is never rolled back. -/
theorem update_no_rollback (st : SysState) (newConfig : JSValue)
    (saveToFile fsWriteOk : Bool) :
    (updateWebhookConfig st newConfig saveToFile fsWriteOk).store = newConfig
    ∧ (saveToFile = true → st.pathKnown = true → fsWriteOk = false →
        ∀ w, spVal newConfig = some w →
          (updateWebhookConfig st newConfig saveToFile fsWriteOk).file = st.file
          ∧ LogEntry.mk .error "Failed to save webhook config to file:"
              ∈ (updateWebhookConfig st newConfig saveToFile fsWriteOk).logs) := by
  constructor
  · unfold updateWebhookConfig
    by_cases hp : (saveToFile && st.pathKnown) = true
    · simp [hp]
      cases spVal newConfig <;> simp <;> cases fsWriteOk <;> simp
    · simp [hp]
  · intro hs hp hw w hv
    unfold updateWebhookConfig
    simp [hs, hp, hw, hv]

/-- C5 witness: a persisting update whose file write fails still replaces the
in-memory configuration and logs the failure. -/
theorem update_no_rollback_witness :
    (updateWebhookConfig
        ⟨.undefined, .doc .null, true, true, []⟩
        (configToVal ⟨"https://example.test/hook", none, none⟩) true false).store
      = configToVal ⟨"https://example.test/hook", none, none⟩
    ∧ (updateWebhookConfig
          ⟨.undefined, .doc .null, true, true, []⟩
          (configToVal ⟨"https://example.test/hook", none, none⟩) true false).file
        = FileContent.doc .null
    ∧ LogEntry.mk .error "Failed to save webhook config to file:"
        ∈ (updateWebhookConfig
            ⟨.undefined, .doc .null, true, true, []⟩
            (configToVal ⟨"https://example.test/hook", none, none⟩) true false).logs :=
  ⟨(update_no_rollback ⟨.undefined, .doc .null, true, true, []⟩
      (configToVal ⟨"https://example.test/hook", none, none⟩) true false).1,
   ((update_no_rollback ⟨.undefined, .doc .null, true, true, []⟩
      (configToVal ⟨"https://example.test/hook", none, none⟩) true false).2 rfl rfl rfl
      _ rfl).1,
   ((update_no_rollback ⟨.undefined, .doc .null, true, true, []⟩
      (configToVal ⟨"https://example.test/hook", none, none⟩) true false).2 rfl rfl rfl
      _ rfl).2⟩

/-- C4: after `disable_webhook` with persistence requested, the store reads
back as `undefined` and every subsequent inbound event short-circuits before
filtering: the filter is not evaluated, no payload is built, no request is
issued.  The backing file is left unchanged — `JSON.stringify(undefined)` is
`undefined`, so the attempted write throws and is caught — hence the claim's
conditional clause (a written file represents the disabled state) holds
vacuously: no file is ever written by the disable path. -/
theorem disable_short_circuits (st : SysState) (fsWriteOk : Bool)
    (message : MessageIn) (outcome : Except String Int) :
    getCurrentWebhookConfig (disableWebhook st true fsWriteOk) = .undefined
    ∧ (disableWebhook st true fsWriteOk).file = st.file
    ∧ (processMessage (getCurrentWebhookConfig (disableWebhook st true fsWriteOk))
        message outcome).filterEvaluated = false
    ∧ (processMessage (getCurrentWebhookConfig (disableWebhook st true fsWriteOk))
        message outcome).payloadBuilt = false
    ∧ (processMessage (getCurrentWebhookConfig (disableWebhook st true fsWriteOk))
        message outcome).requests = [] := by
  have hstore : (disableWebhook st true fsWriteOk).store = .undefined := by
    unfold disableWebhook updateWebhookConfig
    by_cases hp : st.pathKnown
    · simp [hp, spVal]
    · simp [hp]
  have hfile : (disableWebhook st true fsWriteOk).file = st.file := by
    unfold disableWebhook updateWebhookConfig
    by_cases hp : st.pathKnown
    · simp [hp, spVal]
    · simp [hp]
  refine ⟨hstore, hfile, ?_, ?_, ?_⟩ <;>
    simp [getCurrentWebhookConfig, hstore, processMessage, jsTruthy]

/-! ## The persist round trip (C7) -/

lemma spItems_map_str (l : List String) :
    spItems (l.map JSValue.str) = l.map JSValue.str := by
  induction l with
  | nil => rfl
  | cons a as ih => simp [spItems, spVal, ih]

/-- Serializing the JavaScript value of a structured configuration as
formatted JSON and parsing it back is the identity: no field of such a value
is `undefined`, so nothing is dropped. -/
lemma spVal_configToVal (c : WebhookConfig) :
    spVal (configToVal c) = some (configToVal c) := by
  rcases c with ⟨u, t, fo⟩
  cases fo with
  | none =>
    cases t <;> simp [configToVal, spVal, spFields]
  | some f =>
    rcases f with ⟨an, ap, ag⟩
    cases t <;> cases an <;> cases ap <;> cases ag <;>
      simp [configToVal, filtersToVal, spVal, spFields, spItems_map_str]

/-- C7: `updateWebhookConfig(cfg, true)` writes the backing file so that a
subsequent `loadWebhookConfig` returns — and installs — a value structurally
(deep-) equal to the configuration that was set: formatted-JSON serialize
followed by parse is the identity on configurations. -/
theorem persist_roundtrip (c : WebhookConfig) (st : SysState)
    (h : st.pathKnown = true) :
    (updateWebhookConfig st (configToVal c) true true).file = .doc (configToVal c)
    ∧ (loadWebhookConfig (updateWebhookConfig st (configToVal c) true true)).2
        = configToVal c
    ∧ (loadWebhookConfig (updateWebhookConfig st (configToVal c) true true)).1.store
        = configToVal c := by
  have hfile : (updateWebhookConfig st (configToVal c) true true).file
      = .doc (configToVal c) := by
    unfold updateWebhookConfig
    simp [h, spVal_configToVal]
  refine ⟨hfile, ?_, ?_⟩ <;> simp [loadWebhookConfig, hfile]

/-- C7 witness: a full configuration (token and every filter field present)
round-trips through the persisted file. -/
theorem persist_roundtrip_witness :
    (loadWebhookConfig (updateWebhookConfig ⟨.undefined, .absent, true, false, []⟩
        (configToVal ⟨"https://example.test/hook", some "secret",
          some ⟨some ["15551234567", "15557654321"], some true, some false⟩⟩)
        true true)).2
      = configToVal ⟨"https://example.test/hook", some "secret",
          some ⟨some ["15551234567", "15557654321"], some true, some false⟩⟩ :=
  (persist_roundtrip
    ⟨"https://example.test/hook", some "secret",
      some ⟨some ["15551234567", "15557654321"], some true, some false⟩⟩
    ⟨.undefined, .absent, true, false, []⟩ rfl).2.1

/-! ## Dispatch outcome handling (C2) -/

/-- C2: for an accepted inbound event, the handler issues exactly one request
(no retry); a response status outside [200, 300) is logged as a warning and a
rejected request (transport error, or the axios rejection a non-2xx status
produces under default validation) is logged as an error; in both cases the
handler returns an ordinary result — the caught exception never escapes — and
the processing of subsequent inbound events is the same whatever this
event's dispatch outcome was. -/
theorem dispatch_failure_absorbed (webhookConfig : JSValue) (message : MessageIn)
    (outcome : Except String Int)
    (hActive : jsTruthy webhookConfig = true)
    (hAccept : filterRejects webhookConfig (jsStrIncludes message.from_ "@g.us")
        message.number = false) :
    (processMessage webhookConfig message outcome).requests.length = 1
    ∧ (∀ status : Int, outcome = .ok status → (status < 200 ∨ 300 ≤ status) →
        LogEntry.mk .warn ("Webhook request failed with status " ++ toString status)
          ∈ (processMessage webhookConfig message outcome).logs)
    ∧ (∀ e, outcome = .error e →
        LogEntry.mk .error "Error sending webhook:"
          ∈ (processMessage webhookConfig message outcome).logs)
    ∧ (∀ rest, processEvents webhookConfig ((message, outcome) :: rest)
        = processMessage webhookConfig message outcome
            :: processEvents webhookConfig rest) := by
  refine ⟨?_, ?_, ?_, fun rest => rfl⟩
  · unfold processMessage dispatchTry
    cases outcome <;> simp [hActive, hAccept]
  · intro status hst hfail
    subst hst
    unfold processMessage dispatchTry
    have : (status < 200 || 300 ≤ status) = true := by
      rcases hfail with h | h <;> simp [h]
    simp [hActive, hAccept, this]
  · intro e he
    subst he
    unfold processMessage dispatchTry
    simp [hActive, hAccept]

/-- A concrete private text message, used to instantiate the theorems. -/
def sampleTextMessage : MessageIn :=
  { from_ := "15551234567@c.us"
    number := "15551234567"
    pushname := "Test User"
    body := "hello"
    timestamp := 1700000000
    messageIdSerialized := "false_15551234567@c.us_AAA"
    fromMe := false
    type := "text"
    deviceType := "android"
    isForwarded := false
    isStarred := false
    hasQuotedMsg := false
    hasReaction := false
    isEphemeral := false
    hasMedia := false
    duration := .undefined
    filename := .undefined
    location := .undefined
    vCards := .undefined
    quotedMsgId := .undefined
    inviteV4 := .undefined
    mentionedIds := .undefined
    mediaResult := .ok .undefined
    quotedResult := .ok .undefined
    chatResult := .ok .undefined }

/-- A concrete group image message whose media download rejects. -/
def sampleImageMessage : MessageIn :=
  { sampleTextMessage with
    from_ := "12036304en96@g.us"
    body := "a caption"
    type := "image"
    hasMedia := true
    mediaResult := .error "media download failed" }

/-- C2 witness: a webhook endpoint that refuses the connection; the handler
posts once and logs the error. -/
theorem dispatch_failure_absorbed_witness :
    (processMessage (configToVal ⟨"https://example.test/hook", none, none⟩)
        sampleTextMessage (.error "ECONNREFUSED")).requests.length = 1
    ∧ LogEntry.mk .error "Error sending webhook:"
        ∈ (processMessage (configToVal ⟨"https://example.test/hook", none, none⟩)
            sampleTextMessage (.error "ECONNREFUSED")).logs :=
  ⟨(dispatch_failure_absorbed (configToVal ⟨"https://example.test/hook", none, none⟩)
      sampleTextMessage (.error "ECONNREFUSED") rfl rfl).1,
   (dispatch_failure_absorbed (configToVal ⟨"https://example.test/hook", none, none⟩)
      sampleTextMessage (.error "ECONNREFUSED") rfl rfl).2.2.1 "ECONNREFUSED" rfl⟩

/-! ## Payload construction under media failure (C8) -/

lemma find?_typedPart_media (message : MessageIn) :
    (typedPart message).find? (fun kv => kv.1 == "media") = none := by
  unfold typedPart
  split <;> rfl

lemma find?_typedPart_messageType (message : MessageIn) :
    ∃ s, (typedPart message).find? (fun kv => kv.1 == "messageType")
      = some ("messageType", .str s) := by
  unfold typedPart
  split <;> exact ⟨_, rfl⟩

lemma find?_typedPart_content (message : MessageIn) :
    ∃ fields, (typedPart message).find? (fun kv => kv.1 == "content")
      = some ("content", .obj fields) := by
  unfold typedPart
  split <;> exact ⟨_, rfl⟩

/-- C8: when a media-bearing message's download rejects, the payload is still
fully produced — every envelope field is present with its value, and
`messageType` and `content` are populated per the message kind — while the
`media` field carries the error marker object instead of media bytes. -/
theorem media_failure_payload (message : MessageIn) (isGroup : Bool) (e : String)
    (hm : message.hasMedia = true) (hf : message.mediaResult = .error e) :
    jsGet (prepareWebhookPayload message isGroup).1 "media"
        = .obj [("error", .str "Failed to download media")]
    ∧ jsGet (prepareWebhookPayload message isGroup).1 "from" = .str message.number
    ∧ jsGet (prepareWebhookPayload message isGroup).1 "name" = .str message.pushname
    ∧ jsGet (prepareWebhookPayload message isGroup).1 "message" = .str message.body
    ∧ jsGet (prepareWebhookPayload message isGroup).1 "isGroup" = .bool isGroup
    ∧ jsGet (prepareWebhookPayload message isGroup).1 "timestamp" = .num message.timestamp
    ∧ jsGet (prepareWebhookPayload message isGroup).1 "messageId"
        = .str message.messageIdSerialized
    ∧ jsGet (prepareWebhookPayload message isGroup).1 "fromMe" = .bool message.fromMe
    ∧ jsGet (prepareWebhookPayload message isGroup).1 "type" = .str message.type
    ∧ jsGet (prepareWebhookPayload message isGroup).1 "deviceType"
        = .str message.deviceType
    ∧ jsGet (prepareWebhookPayload message isGroup).1 "isForwarded"
        = .bool message.isForwarded
    ∧ jsGet (prepareWebhookPayload message isGroup).1 "isStarred"
        = .bool message.isStarred
    ∧ jsGet (prepareWebhookPayload message isGroup).1 "hasQuotedMsg"
        = .bool message.hasQuotedMsg
    ∧ jsGet (prepareWebhookPayload message isGroup).1 "hasReaction"
        = .bool message.hasReaction
    ∧ jsGet (prepareWebhookPayload message isGroup).1 "isEphemeral"
        = .bool message.isEphemeral
    ∧ jsGet (prepareWebhookPayload message isGroup).1 "messageType" ≠ .undefined
    ∧ jsGet (prepareWebhookPayload message isGroup).1 "content" ≠ .undefined := by
  have hmp : mediaPart message
      = ([("media", .obj [("error", .str "Failed to download media")])],
         [LogEntry.mk .warn "Failed to download media for webhook:"]) := by
    simp [mediaPart, hm, hf]
  obtain ⟨s, hs⟩ := find?_typedPart_messageType message
  obtain ⟨cf, hc⟩ := find?_typedPart_content message
  unfold prepareWebhookPayload
  rw [hmp]
  refine ⟨?_, ?_, ?_, ?_, ?_, ?_, ?_, ?_, ?_, ?_, ?_, ?_, ?_, ?_, ?_, ?_, ?_⟩ <;>
    simp [jsGet, List.find?_append, Option.or, basePayload, List.find?,
      find?_typedPart_media, hs, hc]

/-- C8 witness: a group image message whose media download rejects still
yields a payload with the envelope, image content, and the media error
marker. -/
theorem media_failure_payload_witness :
    jsGet (prepareWebhookPayload sampleImageMessage true).1 "media"
        = .obj [("error", .str "Failed to download media")]
    ∧ jsGet (prepareWebhookPayload sampleImageMessage true).1 "from"
        = .str "15551234567"
    ∧ jsGet (prepareWebhookPayload sampleImageMessage true).1 "messageType" ≠ .undefined :=
  ⟨(media_failure_payload sampleImageMessage true "media download failed" rfl rfl).1,
   (media_failure_payload sampleImageMessage true "media download failed" rfl rfl).2.1,
   (media_failure_payload sampleImageMessage true "media download failed"
      rfl rfl).2.2.2.2.2.2.2.2.2.2.2.2.2.2.2.1⟩

/-! ## The delivery wire contract (C9) -/

lemma jsTruthy_configToVal (c : WebhookConfig) : jsTruthy (configToVal c) = true := rfl

/-- C9 counterexample: a configuration whose `authToken` is present but is
the empty string.  The `authToken ? ... : ...` at the `axios.post` call site
is a truthiness test, so the issued request carries no `Authorization` header
even though `authToken` is present in the configuration — refuting the
"if and only if `authToken` is present" claim. -/
theorem bearer_header_counterexample :
    jsGet (configToVal ⟨"https://example.test/hook", some "", none⟩) "authToken"
      = .str ""
    ∧ (processMessage (configToVal ⟨"https://example.test/hook", some "", none⟩)
          sampleTextMessage (.ok 200)).requests.map HttpRequest.headers
      = [[("Content-Type", "application/json")]] :=
  ⟨rfl, rfl⟩

/-- C9 amended: every delivery of an accepted event issues exactly one
request: a POST to the configuration's `url`, with the payload object as
JSON body, the `Content-Type: application/json` header, and the
`Authorization: Bearer` header exactly when `authToken` is present *and
non-empty* (truthy). -/
theorem request_wire_contract (c : WebhookConfig) (message : MessageIn)
    (outcome : Except String Int)
    (hAccept : filterRejects (configToVal c) (jsStrIncludes message.from_ "@g.us")
        message.number = false) :
    (processMessage (configToVal c) message outcome).requests
      = [mkRequest (configToVal c)
          (prepareWebhookPayload message (jsStrIncludes message.from_ "@g.us")).1]
    ∧ (mkRequest (configToVal c)
        (prepareWebhookPayload message (jsStrIncludes message.from_ "@g.us")).1).method
      = "POST"
    ∧ (mkRequest (configToVal c)
        (prepareWebhookPayload message (jsStrIncludes message.from_ "@g.us")).1).url
      = .str c.url
    ∧ (mkRequest (configToVal c)
        (prepareWebhookPayload message (jsStrIncludes message.from_ "@g.us")).1).body
      = (prepareWebhookPayload message (jsStrIncludes message.from_ "@g.us")).1
    ∧ (∀ t, c.authToken = some t → t ≠ "" →
        (mkRequest (configToVal c)
          (prepareWebhookPayload message (jsStrIncludes message.from_ "@g.us")).1).headers
        = [("Content-Type", "application/json"), ("Authorization", "Bearer " ++ t)])
    ∧ (c.authToken = none ∨ c.authToken = some "" →
        (mkRequest (configToVal c)
          (prepareWebhookPayload message (jsStrIncludes message.from_ "@g.us")).1).headers
        = [("Content-Type", "application/json")]) := by
  refine ⟨?_, rfl, ?_, rfl, ?_, ?_⟩
  · unfold processMessage dispatchTry
    cases outcome <;> simp [jsTruthy_configToVal, hAccept]
  · simp [mkRequest, url_val]
  · intro t ht hne
    simp [mkRequest, authToken_val, ht, jsTruthy, jsTemplateStr, hne]
  · intro h
    rcases h with h | h <;> simp [mkRequest, authToken_val, h, jsTruthy]

/-- C9 amended witness: a non-empty token yields the bearer header on the
single issued POST. -/
theorem request_wire_contract_witness :
    (processMessage (configToVal ⟨"https://example.test/hook", some "secret", none⟩)
        sampleTextMessage (.ok 200)).requests
      = [mkRequest (configToVal ⟨"https://example.test/hook", some "secret", none⟩)
          (prepareWebhookPayload sampleTextMessage
            (jsStrIncludes sampleTextMessage.from_ "@g.us")).1]
    ∧ (mkRequest (configToVal ⟨"https://example.test/hook", some "secret", none⟩)
        (prepareWebhookPayload sampleTextMessage
          (jsStrIncludes sampleTextMessage.from_ "@g.us")).1).headers
      = [("Content-Type", "application/json"), ("Authorization", "Bearer secret")] :=
  ⟨(request_wire_contract ⟨"https://example.test/hook", some "secret", none⟩
      sampleTextMessage (.ok 200) rfl).1,
   (request_wire_contract ⟨"https://example.test/hook", some "secret", none⟩
      sampleTextMessage (.ok 200) rfl).2.2.2.2.1 "secret" rfl (by simp)⟩

/-! ## Configuration snapshot across phases (C10) -/

/-- C10 counterexample: the store is updated between the filter phase and the
dispatch phase (entry snapshot has url `https://a.example/hook`, the store at
dispatch time has url `https://b.example/hook`), yet the event is posted to
the *entry* snapshot's url — not to the configuration current at dispatch
time, refuting the claim that each phase uses the configuration current when
it runs. -/
theorem snapshot_race_counterexample :
    (runEventWithStores (configToVal ⟨"https://a.example/hook", none, none⟩)
        (configToVal ⟨"https://b.example/hook", none, none⟩)
        sampleTextMessage (.ok 200)).requests.map HttpRequest.url
      = [.str "https://a.example/hook"]
    ∧ jsGet (configToVal ⟨"https://b.example/hook", none, none⟩) "url"
      = .str "https://b.example/hook"
    ∧ (runEventWithStores (configToVal ⟨"https://a.example/hook", none, none⟩)
        (configToVal ⟨"https://b.example/hook", none, none⟩)
        sampleTextMessage (.ok 200)).requests.map HttpRequest.url
      ≠ [jsGet (configToVal ⟨"https://b.example/hook", none, none⟩) "url"] := by
  refine ⟨rfl, rfl, fun h => ?_⟩
  have h' : [JSValue.str "https://a.example/hook"]
      = [JSValue.str "https://b.example/hook"] := h
  injection h' with h1 h2
  injection h1 with h3
  exact absurd h3 (by decide)

/-- C10 amended: the handler reads the configuration store exactly once, at
event entry; both the filter phase and the dispatch phase use that single
snapshot, so a configuration update or reload completing between filter and
dispatch has no effect on the in-flight event's delivery. -/
theorem snapshot_single_read (storeAtEntry storeAtDispatch storeAtDispatch' : JSValue)
    (message : MessageIn) (outcome : Except String Int) :
    runEventWithStores storeAtEntry storeAtDispatch message outcome
      = processMessage storeAtEntry message outcome
    ∧ runEventWithStores storeAtEntry storeAtDispatch message outcome
      = runEventWithStores storeAtEntry storeAtDispatch' message outcome :=
  ⟨rfl, rfl⟩

end WwebMcp
